import Mathlib

/-!
Shallow embedding of the GoAway motion detector (package detector).
Pure control/data-flow of the per-frame pipeline is modelled directly from
the Go source; the external vision primitives (background subtraction,
contour extraction) are treated as inputs: each non-empty frame carries the
list of contour areas the pipeline would extract from it, and the mask
refiner (threshold + dilate) is modelled pixel-wise over an integer grid
with the standard OpenCV semantics of the operations the source invokes.
-/

namespace GoAway

/-- RGBA color, mirroring the Go image/color RGBA struct (four 8-bit channels). -/
structure RGBA where
  r : Nat
  g : Nat
  b : Nat
  a : Nat
deriving DecidableEq

/-- WaitKey code the display loop treats as the termination signal (ASCII escape). -/
def escapeKey : Int := 27

/-- NotSensitive preset: large minimum diff contour area (source constant 9000). -/
def NotSensitive : Rat := 9000

/-- DefaultSensitive preset: medium minimum diff contour area (source constant 6000). -/
def DefaultSensitive : Rat := 6000

/-- VerySensitive preset: small minimum diff contour area (source constant 3000). -/
def VerySensitive : Rat := 3000

/-- Status string of a detector that completed initialization. -/
def DetectorStatusReady : String := "Ready"

/-- Status string of a detector that detected motion in the current cycle. -/
def DetectorStatusMotionDetected : String := "Motion Detected"

/-- Status string of a detector that has been closed. -/
def DetectorStatusClosed : String := "Closed"

/-- Color of bounding rectangles drawn around qualifying regions (black). -/
def boundingRectColor : RGBA := ⟨0, 0, 0, 0⟩

/-- Color associated with the Ready status (white). -/
def statusReadyColor : RGBA := ⟨255, 255, 255, 0⟩

/-- Color associated with the Motion Detected status (purple). -/
def statusMotionDetectedColor : RGBA := ⟨255, 0, 255, 0⟩

/-- Detector state: the fields of the Go Detector struct that carry the
control-flow state (status, status color, sensitivity threshold, and whether
an on-detect callback is registered). The gocv matrices and the background
subtractor are external handles whose pixel content is modelled separately. -/
structure Detector where
  statusColor : RGBA
  minDiffContourArea : Rat
  status : String
  onDetect : Bool
deriving DecidableEq

/-- Errors the Go code returns from the processing loop. -/
inductive GoError where
  | videoDeviceClosed : GoError
deriving DecidableEq

/-- Result of one camera.Read call: either the device reports closure
(read returns not-ok), or an ok frame with an emptiness flag and the list of
contour areas the external vision pipeline extracts from that frame. -/
inductive ReadResult where
  | closed : ReadResult
  | frame (isEmpty : Bool) (areas : List Rat) : ReadResult
deriving DecidableEq

/-- The video capture device: whether it is open, and its pending reads. -/
structure Camera where
  isOpen : Bool
  frames : List ReadResult
deriving DecidableEq

/-- Outcome of waitForNextFrame: the device-closed error, or success carrying
the updated detector and the accepted frame's contour areas. -/
inductive WaitResult where
  | err (d : Detector) (e : GoError) : WaitResult
  | ok (d : Detector) (areas : List Rat) : WaitResult
deriving DecidableEq

/-- Loop body of waitForNextFrame over the pending reads: a not-ok read
returns the Video Device Closed error, an empty-but-ok frame is retried
silently, and a non-empty frame sets status Ready with its color and
succeeds. Returns none when the read stream is exhausted (the Go loop would
still be blocked inside camera.Read). -/
def waitFrames (d : Detector) : List ReadResult → Option (WaitResult × List ReadResult)
  | [] => none
  | ReadResult.closed :: rest =>
      some (WaitResult.err d GoError.videoDeviceClosed, rest)
  | ReadResult.frame isEmpty areas :: rest =>
      if isEmpty then waitFrames d rest
      else
        some (WaitResult.ok
          { d with status := DetectorStatusReady, statusColor := statusReadyColor } areas, rest)

/-- waitForNextFrame: reads from the camera until a non-empty frame or a
closed signal; a read on a released device returns not-ok. -/
def waitForNextFrame (d : Detector) (c : Camera) : Option (WaitResult × Camera) :=
  if c.isOpen then
    match waitFrames d c.frames with
    | none => none
    | some (r, rest) => some (r, { c with frames := rest })
  else
    some (WaitResult.err d GoError.videoDeviceClosed, c)

/-- OpenCV binary threshold (THRESH_BINARY): a destination pixel is maxval
when the source pixel is strictly greater than thresh, else 0. -/
def thresholdBinary (thresh maxval : Nat) (src : Int → Int → Nat) : Int → Int → Nat :=
  fun x y => if thresh < src x y then maxval else 0

/-- Offsets of the 3x3 rectangular structuring element used for dilation. -/
def neighborhood3x3 : List (Int × Int) :=
  [(-1, -1), (-1, 0), (-1, 1), (0, -1), (0, 0), (0, 1), (1, -1), (1, 0), (1, 1)]

/-- Morphological dilation with the 3x3 rectangular structuring element:
each destination pixel is the maximum of the source over its 3x3 neighborhood. -/
def dilate3x3 (src : Int → Int → Nat) : Int → Int → Nat :=
  fun x y => (neighborhood3x3.map (fun p => src (x + p.1) (y + p.2))).foldl Nat.max 0

/-- Mask-refinement part of prepareCurrentFrame: the foreground mask produced
by the background subtractor is thresholded at 25 with maxval 255 and then
dilated with a 3x3 rectangular kernel, exactly in that order. -/
def prepareCurrentFrame (diff : Int → Int → Nat) : Int → Int → Nat :=
  dilate3x3 (thresholdBinary 25 255 diff)

/-- Modelled from the spec: an inclusive-boundary threshold in which any pixel
with magnitude at least thresh becomes maxval, as the spec words describe the
mask refiner. Used only for comparison against the source semantics. -/
def specThresholdInclusive (thresh maxval : Nat) (src : Int → Int → Nat) : Int → Int → Nat :=
  fun x y => if thresh ≤ src x y then maxval else 0

/-- Modelled from the spec: the mask refiner with the inclusive boundary the
spec describes, followed by the same 3x3 dilation. -/
def specPrepareCurrentFrame (diff : Int → Int → Nat) : Int → Int → Nat :=
  dilate3x3 (specThresholdInclusive 25 255 diff)

/-- One iteration of the contour loop in findAndDrawContours: regions with
area below the sensitivity threshold are skipped; otherwise the status is set
to Motion Detected with its color and, when a callback is registered, one
asynchronous invocation is dispatched (counted in the second component). -/
def contourStep (st : Detector × Nat) (area : Rat) : Detector × Nat :=
  if area < st.1.minDiffContourArea then st
  else
    ({ st.1 with
        status := DetectorStatusMotionDetected,
        statusColor := statusMotionDetectedColor },
     if st.1.onDetect then st.2 + 1 else st.2)

/-- findAndDrawContours: folds the contour loop over the areas of the regions
extracted from the current binary mask; returns the updated detector and the
number of callback invocations dispatched this cycle. -/
def findAndDrawContours (d : Detector) (areas : List Rat) : Detector × Nat :=
  areas.foldl contourStep (d, 0)

/-- displayResult: shows the frame, then polls WaitKey; returns whether the
escape key was observed, together with the remaining key stream (an empty
stream means no key pressed, which is not the escape key). -/
def displayResult (keys : List Int) : Bool × List Int :=
  match keys with
  | [] => (false, [])
  | k :: rest => (decide (k = escapeKey), rest)

/-- NewMotionDetector: fails when the video capture device cannot be opened;
otherwise constructs a detector with status Ready, the Ready color, the
NotSensitive area threshold, and the supplied callback registration. -/
def NewMotionDetector (cameraOpens : Bool) (onDetect : Bool) : Option Detector :=
  if cameraOpens then
    some
      { statusColor := statusReadyColor
        status := DetectorStatusReady
        onDetect := onDetect
        minDiffContourArea := NotSensitive }
  else none

/-- Outcome of one iteration of the Start loop: a fatal wait error, or a
completed cycle carrying the detector, camera, remaining keys, the areas the
cycle processed, the callback dispatch count, and the termination flag. -/
inductive CycleResult where
  | err (d : Detector) (c : Camera) (e : GoError) : CycleResult
  | next (d : Detector) (c : Camera) (keys : List Int) (areas : List Rat)
      (spawns : Nat) (done : Bool) : CycleResult
deriving DecidableEq

/-- One iteration of the Start loop: waitForNextFrame, then the pipeline
(prepareCurrentFrame feeding findAndDrawContours, with the accepted frame's
areas standing for the extracted regions), then displayResult. -/
def runCycle (d : Detector) (c : Camera) (keys : List Int) : Option CycleResult :=
  match waitForNextFrame d c with
  | none => none
  | some (WaitResult.err d1 e, c1) => some (CycleResult.err d1 c1 e)
  | some (WaitResult.ok d1 areas, c1) =>
      let r := findAndDrawContours d1 areas
      let disp := displayResult keys
      some (CycleResult.next r.1 c1 disp.2 areas r.2 disp.1)

/-- Full mutable state the Start loop threads: detector, camera, pending
keys, and the total number of callback invocations dispatched so far. -/
structure StartState where
  det : Detector
  camera : Camera
  keys : List Int
  spawned : Nat
deriving DecidableEq

/-- Start: repeats runCycle until the display signals termination (returns
no error) or the wait fails (returns the error); fuel bounds the number of
iterations, with none meaning the loop is still running. -/
def StartFuel : Nat → StartState → Option (StartState × Option GoError)
  | 0, _ => none
  | Nat.succ fuel, s =>
      match runCycle s.det s.camera s.keys with
      | none => none
      | some (CycleResult.err d1 c1 e) =>
          some ({ s with det := d1, camera := c1 }, some e)
      | some (CycleResult.next d1 c1 keys1 _ n done) =>
          let s1 : StartState :=
            { det := d1, camera := c1, keys := keys1, spawned := s.spawned + n }
          if done then some (s1, none) else StartFuel fuel s1

/-- The six resources Close releases, in the order the source releases them. -/
inductive Resource where
  | camera : Resource
  | window : Resource
  | baseImg : Resource
  | diff : Resource
  | thresh : Resource
  | bgsub : Resource
deriving DecidableEq

/-- Order in which Close attempts the releases. -/
def closeOrder : List Resource :=
  [Resource.camera, Resource.window, Resource.baseImg,
   Resource.diff, Resource.thresh, Resource.bgsub]

/-- Log message emitted when the release of a resource fails. -/
def releaseLog : Resource → String
  | Resource.camera => "could not close camera"
  | Resource.window => "could not close window"
  | Resource.baseImg => "could not close image matrix"
  | Resource.diff => "could not close diff matrix"
  | Resource.thresh => "could not close threshold matrix"
  | Resource.bgsub => "could not close background subtractor"

/-- Result of Close: the updated detector, the releases attempted in order,
and the failure log lines. The type has no error component because the Go
Close returns nothing to its caller. -/
structure CloseResult where
  det : Detector
  attempted : List Resource
  logs : List String
deriving DecidableEq

/-- One release attempt: the resource is recorded as attempted
unconditionally; a failure only appends a log line. -/
def tryRelease (fails : Resource → Bool) (acc : List Resource × List String)
    (r : Resource) : List Resource × List String :=
  (acc.1 ++ [r], if fails r then acc.2 ++ [releaseLog r] else acc.2)

/-- Close: sets status to Closed, then attempts the six releases in source
order, each independently of the outcomes of the earlier ones. The fails
argument is the fault-injection profile of the external release calls. -/
def Close (d : Detector) (fails : Resource → Bool) : CloseResult :=
  let d1 : Detector := { d with status := DetectorStatusClosed }
  let a0 : List Resource × List String := ([], [])
  let a1 := tryRelease fails a0 Resource.camera
  let a2 := tryRelease fails a1 Resource.window
  let a3 := tryRelease fails a2 Resource.baseImg
  let a4 := tryRelease fails a3 Resource.diff
  let a5 := tryRelease fails a4 Resource.thresh
  let a6 := tryRelease fails a5 Resource.bgsub
  { det := d1, attempted := a6.1, logs := a6.2 }

/-- Status accessor: returns the current status string without mutation. -/
def Status (d : Detector) : String := d.status

/-- Operations a client can invoke on a detector after construction. -/
inductive Op where
  | start (fuel : Nat) : Op
  | statusQuery : Op
  | snapshotJPG : Op
  | close (fails : Resource → Bool) : Op

/-- Effect of one operation on the full state. Status and SnapshotJPG only
read. Close updates the detector via Close and releases the camera, so later
reads on it return not-ok. Start runs the loop; when the fuel runs out the
pre-loop state is kept (the loop is unobservably still running). -/
def applyOp (w : StartState) (op : Op) : StartState :=
  match op with
  | Op.start fuel =>
      match StartFuel fuel w with
      | none => w
      | some (s1, _) => s1
  | Op.statusQuery => w
  | Op.snapshotJPG => w
  | Op.close fails =>
      { w with det := (Close w.det fails).det,
               camera := { w.camera with isOpen := false } }

/-- Applies a sequence of operations in order. -/
def runOps (w : StartState) (ops : List Op) : StartState :=
  ops.foldl applyOp w

/-- State right after construction: a fresh detector, an open camera holding
the pending reads, the pending keys, and no callback dispatched yet. -/
def initWorld (cameraOpens onDetect : Bool) (frames : List ReadResult)
    (keys : List Int) : Option StartState :=
  (NewMotionDetector cameraOpens onDetect).map
    (fun d => { det := d
                camera := { isOpen := true, frames := frames }
                keys := keys
                spawned := 0 })

/-- Consistency of the status color with the status for the two statuses the
processing loop assigns: Ready goes with white, Motion Detected with purple. -/
def colorConsistent (d : Detector) : Prop :=
  (d.status = DetectorStatusReady → d.statusColor = statusReadyColor) ∧
  (d.status = DetectorStatusMotionDetected → d.statusColor = statusMotionDetectedColor)

/-- The detector NewMotionDetector builds when the device opens and no
callback is supplied. -/
def initDetector : Detector :=
  { statusColor := statusReadyColor
    minDiffContourArea := NotSensitive
    status := DetectorStatusReady
    onDetect := false }

/-- The detector NewMotionDetector builds when the device opens and a
callback is supplied. -/
def callbackDetector : Detector :=
  { statusColor := statusReadyColor
    minDiffContourArea := NotSensitive
    status := DetectorStatusReady
    onDetect := true }

/-- A fresh detector after a cycle that qualified a region: status Motion
Detected with the purple color. -/
def motionDetector : Detector :=
  { statusColor := statusMotionDetectedColor
    minDiffContourArea := NotSensitive
    status := DetectorStatusMotionDetected
    onDetect := false }

/-- A fresh detector reconfigured with the VerySensitive preset. -/
def verySensitiveDetector : Detector :=
  { initDetector with minDiffContourArea := VerySensitive }

/-- A fresh detector reconfigured with the DefaultSensitive preset. -/
def defaultSensitiveDetector : Detector :=
  { initDetector with minDiffContourArea := DefaultSensitive }

/-- A freshly constructed state whose camera has no pending reads. -/
def idleWorld : StartState :=
  { det := initDetector
    camera := { isOpen := true, frames := [] }
    keys := []
    spawned := 0 }

/-- A freshly constructed state whose camera will deliver one non-empty
frame holding a single region of area 9000, with an escape key pending. -/
def motionWorld : StartState :=
  { det := initDetector
    camera := { isOpen := true, frames := [ReadResult.frame false [9000]] }
    keys := [escapeKey]
    spawned := 0 }

/-- A freshly constructed state whose camera will immediately report the
device closed. -/
def closedStreamState : StartState :=
  { det := initDetector
    camera := { isOpen := true, frames := [ReadResult.closed] }
    keys := []
    spawned := 0 }

/-- A freshly constructed state whose camera delivers one empty-but-ok frame
and then reports the device closed. -/
def emptyThenClosedState : StartState :=
  { det := initDetector
    camera := { isOpen := true, frames := [ReadResult.frame true [], ReadResult.closed] }
    keys := []
    spawned := 0 }

/-- A state whose camera has already been released, so every read on it
returns not-ok. -/
def releasedCameraState : StartState :=
  { det := initDetector
    camera := { isOpen := false, frames := [] }
    keys := []
    spawned := 0 }

/-- A successful wait returns the input detector with status Ready and the
Ready color, leaving every other field unchanged. -/
theorem waitFrames_ok_det (d : Detector) (fs : List ReadResult) (d1 : Detector)
    (areas : List Rat) (rest : List ReadResult)
    (h : waitFrames d fs = some (WaitResult.ok d1 areas, rest)) :
    d1 = { d with status := DetectorStatusReady, statusColor := statusReadyColor } := by
  induction fs with
  | nil => simp [waitFrames] at h
  | cons hd tl ih =>
      cases hd with
      | closed => simp [waitFrames] at h
      | frame isEmpty as =>
          cases isEmpty with
          | true =>
              rw [waitFrames] at h
              simp only [if_pos] at h
              exact ih h
          | false =>
              rw [waitFrames] at h
              simp only [if_neg, Option.some.injEq, Prod.mk.injEq,
                WaitResult.ok.injEq, Bool.false_eq_true, not_false_iff] at h
              exact h.1.1.symm

/-- A failing wait leaves the detector unchanged, returns the Video Device
Closed error, and can only happen when the read stream contains a closed
signal. -/
theorem waitFrames_err_char (d : Detector) (fs : List ReadResult) (d1 : Detector)
    (e : GoError) (rest : List ReadResult)
    (h : waitFrames d fs = some (WaitResult.err d1 e, rest)) :
    d1 = d ∧ e = GoError.videoDeviceClosed ∧ ReadResult.closed ∈ fs := by
  induction fs with
  | nil => simp [waitFrames] at h
  | cons hd tl ih =>
      cases hd with
      | closed =>
          rw [waitFrames] at h
          simp only [Option.some.injEq, Prod.mk.injEq, WaitResult.err.injEq] at h
          refine ⟨h.1.1.symm, ?_, List.mem_cons_self _ _⟩
          cases e
          rfl
      | frame isEmpty as =>
          cases isEmpty with
          | true =>
              rw [waitFrames] at h
              simp only [if_pos] at h
              rcases ih h with ⟨h1, h2, h3⟩
              exact ⟨h1, h2, List.mem_cons_of_mem _ h3⟩
          | false =>
              rw [waitFrames] at h
              simp at h

/-- The unread remainder a wait returns is drawn from the input stream. -/
theorem waitFrames_rest_mem (d : Detector) (fs : List ReadResult) (r : WaitResult)
    (rest : List ReadResult) (h : waitFrames d fs = some (r, rest)) :
    ∀ x ∈ rest, x ∈ fs := by
  induction fs with
  | nil => simp [waitFrames] at h
  | cons hd tl ih =>
      cases hd with
      | closed =>
          rw [waitFrames] at h
          simp only [Option.some.injEq, Prod.mk.injEq] at h
          intro x hx
          exact List.mem_cons_of_mem _ (h.2 ▸ hx)
      | frame isEmpty as =>
          cases isEmpty with
          | true =>
              rw [waitFrames] at h
              simp only [if_pos] at h
              intro x hx
              exact List.mem_cons_of_mem _ (ih h x hx)
          | false =>
              rw [waitFrames] at h
              simp only [if_neg, Option.some.injEq, Prod.mk.injEq,
                Bool.false_eq_true, not_false_iff] at h
              intro x hx
              exact List.mem_cons_of_mem _ (h.2 ▸ hx)

/-- The contour step never changes the sensitivity threshold or the callback
registration of the detector. -/
theorem contourStep_fields (st : Detector × Nat) (a : Rat) :
    (contourStep st a).1.minDiffContourArea = st.1.minDiffContourArea ∧
    (contourStep st a).1.onDetect = st.1.onDetect := by
  unfold contourStep
  split <;> simp

/-- The contour fold never changes the sensitivity threshold or the callback
registration of the detector. -/
theorem foldl_contourStep_fields (l : List Rat) :
    ∀ st : Detector × Nat,
      (l.foldl contourStep st).1.minDiffContourArea = st.1.minDiffContourArea ∧
      (l.foldl contourStep st).1.onDetect = st.1.onDetect := by
  induction l with
  | nil => intro st; simp
  | cons a tl ih =>
      intro st
      rw [List.foldl_cons]
      rcases ih (contourStep st a) with ⟨h1, h2⟩
      rcases contourStep_fields st a with ⟨g1, g2⟩
      exact ⟨h1.trans g1, h2.trans g2⟩

/-- When every region area is below the threshold, the contour fold is the
identity: nothing is skipped into a detection and nothing is dispatched. -/
theorem foldl_contourStep_skip (l : List Rat) :
    ∀ st : Detector × Nat, (∀ a ∈ l, a < st.1.minDiffContourArea) →
      l.foldl contourStep st = st := by
  induction l with
  | nil => intro st _; simp
  | cons a tl ih =>
      intro st hall
      rw [List.foldl_cons]
      have ha : a < st.1.minDiffContourArea := hall a (List.mem_cons_self _ _)
      have hstep : contourStep st a = st := by
        unfold contourStep
        exact if_pos ha
      rw [hstep]
      exact ih st (fun b hb => hall b (List.mem_cons_of_mem _ hb))

/-- Once the status is Motion Detected, the rest of the contour fold keeps
it Motion Detected. -/
theorem foldl_contourStep_motion_persist (l : List Rat) :
    ∀ st : Detector × Nat, st.1.status = DetectorStatusMotionDetected →
      (l.foldl contourStep st).1.status = DetectorStatusMotionDetected := by
  induction l with
  | nil => intro st h; simpa using h
  | cons a tl ih =>
      intro st h
      rw [List.foldl_cons]
      apply ih
      unfold contourStep
      split
      · exact h
      · rfl

/-- If some region area reaches the threshold, the contour fold ends with
status Motion Detected. -/
theorem foldl_contourStep_qual (l : List Rat) :
    ∀ st : Detector × Nat, ∀ a ∈ l, st.1.minDiffContourArea ≤ a →
      (l.foldl contourStep st).1.status = DetectorStatusMotionDetected := by
  induction l with
  | nil => intro st a ha; simp at ha
  | cons b tl ih =>
      intro st a ha hge
      rw [List.foldl_cons]
      rcases List.mem_cons.mp ha with hab | hatl
      · subst hab
        apply foldl_contourStep_motion_persist
        unfold contourStep
        rw [if_neg (not_lt.mpr hge)]
      · have hmin := (contourStep_fields st b).1
        exact ih (contourStep st b) a hatl (hmin ▸ hge)

/-- The contour fold dispatches exactly one callback invocation per region
whose area reaches the threshold when a callback is registered, and none
otherwise. -/
theorem foldl_contourStep_count (l : List Rat) :
    ∀ st : Detector × Nat,
      (l.foldl contourStep st).2 = st.2 +
        (if st.1.onDetect then
            l.countP (fun a => decide (st.1.minDiffContourArea ≤ a))
          else 0) := by
  induction l with
  | nil => intro st; simp
  | cons a tl ih =>
      intro st
      rw [List.foldl_cons, ih (contourStep st a)]
      rcases contourStep_fields st a with ⟨hmin, hod⟩
      rw [hmin, hod, List.countP_cons]
      by_cases hlt : a < st.1.minDiffContourArea
      · have hstep : contourStep st a = st := by
          unfold contourStep
          exact if_pos hlt
        rw [hstep]
        have hpa : (decide (st.1.minDiffContourArea ≤ a)) = false := by
          simp [not_le.mpr hlt]
        rw [hpa]
        simp
      · have hpa : (decide (st.1.minDiffContourArea ≤ a)) = true := by
          simp [not_lt.mp hlt]
        have hstep : (contourStep st a).2 = if st.1.onDetect then st.2 + 1 else st.2 := by
          unfold contourStep
          rw [if_neg hlt]
        rw [hstep, hpa]
        by_cases hod2 : st.1.onDetect = true
        · rw [hod2]
          simp
          omega
        · have : st.1.onDetect = false := by
            cases hx : st.1.onDetect
            · rfl
            · exact absurd hx hod2
          rw [this]
          simp

/-- The contour fold either leaves the status as it was or sets it to
Motion Detected; it never produces any other status. -/
theorem foldl_contourStep_status_cases (l : List Rat) :
    ∀ st : Detector × Nat,
      (l.foldl contourStep st).1.status = st.1.status ∨
      (l.foldl contourStep st).1.status = DetectorStatusMotionDetected := by
  induction l with
  | nil => intro st; left; rfl
  | cons a tl ih =>
      intro st
      rw [List.foldl_cons]
      rcases ih (contourStep st a) with h | h
      · rw [h]
        unfold contourStep
        split
        · left; rfl
        · right; rfl
      · right; exact h

/-- One contour step preserves the consistency of the status color with the
status: it either keeps the state or sets status and color together. -/
theorem contourStep_colorConsistent (st : Detector × Nat) (a : Rat)
    (h : colorConsistent st.1) : colorConsistent (contourStep st a).1 := by
  unfold contourStep
  split
  · exact h
  · refine ⟨fun hs => ?_, fun _ => rfl⟩
    exact absurd (show DetectorStatusMotionDetected = DetectorStatusReady from hs) (by decide)

/-- The contour fold preserves the consistency of the status color. -/
theorem foldl_contourStep_colorConsistent (l : List Rat) :
    ∀ st : Detector × Nat, colorConsistent st.1 →
      colorConsistent (l.foldl contourStep st).1 := by
  induction l with
  | nil => intro st h; exact h
  | cons a tl ih =>
      intro st h
      rw [List.foldl_cons]
      exact ih _ (contourStep_colorConsistent st a h)

/-- A read on a released camera immediately reports the device closed,
leaving both the detector and the camera unchanged. -/
theorem waitForNextFrame_closed (d : Detector) (c : Camera)
    (h : c.isOpen = false) :
    waitForNextFrame d c = some (WaitResult.err d GoError.videoDeviceClosed, c) := by
  unfold waitForNextFrame
  rw [h]
  simp

/-- Characterization of a failing waitForNextFrame: the detector is
unchanged, the error is Video Device Closed, the failure comes from a
released camera or a closed signal in the stream, and the camera keeps its
openness with the remaining reads drawn from the original stream. -/
theorem waitForNextFrame_err_char (d : Detector) (c : Camera) (d1 : Detector)
    (e : GoError) (c1 : Camera)
    (h : waitForNextFrame d c = some (WaitResult.err d1 e, c1)) :
    d1 = d ∧ e = GoError.videoDeviceClosed ∧
      (c.isOpen = false ∨ ReadResult.closed ∈ c.frames) ∧
      c1.isOpen = c.isOpen ∧ (∀ x ∈ c1.frames, x ∈ c.frames) := by
  unfold waitForNextFrame at h
  by_cases ho : c.isOpen = true
  · rw [ho] at h
    simp only [if_true] at h
    rcases hw : waitFrames d c.frames with _ | ⟨r, rest⟩
    · rw [hw] at h; simp at h
    · rw [hw] at h
      simp only [Option.some.injEq, Prod.mk.injEq] at h
      rcases h with ⟨hr, hc1⟩
      cases r with
      | ok d2 as2 => exact absurd hr (by simp)
      | err d2 e2 =>
          rcases waitFrames_err_char d c.frames d2 e2 rest hw with ⟨hd2, he2, hmem⟩
          have hd1 : d1 = d := by
            have := (WaitResult.err.injEq _ _ _ _).mp hr
            exact this.1.symm.trans hd2
          have he : e = GoError.videoDeviceClosed := by cases e; rfl
          refine ⟨hd1, he, Or.inr hmem, ?_, ?_⟩
          · rw [← hc1]
            exact ho.symm
          · intro x hx
            rw [← hc1] at hx
            exact waitFrames_rest_mem d c.frames (WaitResult.err d2 e2) rest hw x hx
  · have ho2 : c.isOpen = false := by
      cases hx : c.isOpen
      · rfl
      · exact absurd hx ho
    rw [ho2] at h
    simp only [Bool.false_eq_true, if_false, Option.some.injEq, Prod.mk.injEq] at h
    rcases h with ⟨hr, hc1⟩
    have hd1 : d1 = d := ((WaitResult.err.injEq _ _ _ _).mp hr).1.symm
    have he : e = GoError.videoDeviceClosed := by cases e; rfl
    exact ⟨hd1, he, Or.inl ho2, by rw [← hc1], fun x hx => by rw [← hc1] at hx; exact hx⟩

/-- Characterization of a successful waitForNextFrame: the camera was open,
the detector comes out with status Ready and the Ready color, and the camera
stays open with the remaining reads drawn from the original stream. -/
theorem waitForNextFrame_ok_char (d : Detector) (c : Camera) (d1 : Detector)
    (areas : List Rat) (c1 : Camera)
    (h : waitForNextFrame d c = some (WaitResult.ok d1 areas, c1)) :
    d1 = { d with status := DetectorStatusReady, statusColor := statusReadyColor } ∧
      c.isOpen = true ∧ c1.isOpen = true ∧ (∀ x ∈ c1.frames, x ∈ c.frames) := by
  unfold waitForNextFrame at h
  by_cases ho : c.isOpen = true
  · rw [ho] at h
    simp only [if_true] at h
    rcases hw : waitFrames d c.frames with _ | ⟨r, rest⟩
    · rw [hw] at h; simp at h
    · rw [hw] at h
      simp only [Option.some.injEq, Prod.mk.injEq] at h
      rcases h with ⟨hr, hc1⟩
      cases r with
      | err d2 e2 => exact absurd hr (by simp)
      | ok d2 as2 =>
          have hinj := (WaitResult.ok.injEq _ _ _ _).mp hr
          have hd2 := waitFrames_ok_det d c.frames d2 as2 rest hw
          refine ⟨hinj.1.symm.trans hd2, ho, ?_, ?_⟩
          · rw [← hc1]
          · intro x hx
            rw [← hc1] at hx
            exact waitFrames_rest_mem d c.frames _ rest hw x hx
  · have ho2 : c.isOpen = false := by
      cases hx : c.isOpen
      · rfl
      · exact absurd hx ho
    rw [ho2] at h
    simp at h

/-- A cycle on a released camera immediately reports the device closed. -/
theorem runCycle_closed (d : Detector) (c : Camera) (keys : List Int)
    (h : c.isOpen = false) :
    runCycle d c keys = some (CycleResult.err d c GoError.videoDeviceClosed) := by
  unfold runCycle
  rw [waitForNextFrame_closed d c h]

/-- Characterization of a cycle that fails: the detector is unchanged, the
error is Video Device Closed, the camera was released or its stream held a
closed signal, and the returned camera keeps its openness with reads drawn
from the original stream. -/
theorem runCycle_err_char (d : Detector) (c : Camera) (keys : List Int)
    (d1 : Detector) (c1 : Camera) (e : GoError)
    (h : runCycle d c keys = some (CycleResult.err d1 c1 e)) :
    d1 = d ∧ e = GoError.videoDeviceClosed ∧
      (c.isOpen = false ∨ ReadResult.closed ∈ c.frames) ∧
      c1.isOpen = c.isOpen ∧ (∀ x ∈ c1.frames, x ∈ c.frames) := by
  unfold runCycle at h
  rcases hw : waitForNextFrame d c with _ | ⟨r, c2⟩
  · rw [hw] at h; simp at h
  · rw [hw] at h
    cases r with
    | err d2 e2 =>
        simp only [Option.some.injEq, CycleResult.err.injEq] at h
        rcases h with ⟨hd, hc, he⟩
        rcases waitForNextFrame_err_char d c d2 e2 c2 hw with ⟨g1, g2, g3, g4, g5⟩
        subst hd hc
        exact ⟨g1, by cases e; rfl, g3, g4, g5⟩
    | ok d2 as2 =>
        simp at h

/-- Characterization of a completed cycle: the output detector and dispatch
count are produced by findAndDrawContours on the Ready-stamped detector with
the accepted frame's areas, the termination flag and remaining keys come from
displayResult, and the camera was and stays open with reads drawn from the
original stream. -/
theorem runCycle_next_char (d : Detector) (c : Camera) (keys : List Int)
    (d1 : Detector) (c1 : Camera) (keys1 : List Int) (areas : List Rat)
    (n : Nat) (done : Bool)
    (h : runCycle d c keys = some (CycleResult.next d1 c1 keys1 areas n done)) :
    d1 = (findAndDrawContours
            { d with status := DetectorStatusReady, statusColor := statusReadyColor }
            areas).1 ∧
      n = (findAndDrawContours
            { d with status := DetectorStatusReady, statusColor := statusReadyColor }
            areas).2 ∧
      keys1 = (displayResult keys).2 ∧ done = (displayResult keys).1 ∧
      c.isOpen = true ∧ c1.isOpen = true ∧ (∀ x ∈ c1.frames, x ∈ c.frames) := by
  unfold runCycle at h
  rcases hw : waitForNextFrame d c with _ | ⟨r, c2⟩
  · rw [hw] at h; simp at h
  · rw [hw] at h
    cases r with
    | err d2 e2 => simp at h
    | ok d2 as2 =>
        simp only [Option.some.injEq, CycleResult.next.injEq] at h
        rcases h with ⟨hd, hc, hk, has, hn, hdone⟩
        rcases waitForNextFrame_ok_char d c d2 as2 c2 hw with ⟨g1, g2, g3, g4⟩
        subst g1
        subst has
        exact ⟨hd.symm, hn.symm, hk.symm, hdone.symm, g2, hc ▸ g3, fun x hx => g4 x (hc ▸ hx)⟩

/-- Unfolding equation of the Start loop when the cycle fails. -/
theorem StartFuel_succ_err (n : Nat) (s : StartState) (d1 : Detector)
    (c1 : Camera) (e : GoError)
    (h : runCycle s.det s.camera s.keys = some (CycleResult.err d1 c1 e)) :
    StartFuel (n + 1) s = some ({ s with det := d1, camera := c1 }, some e) := by
  rw [StartFuel, h]

/-- Unfolding equation of the Start loop when the cycle completes and the
display signals termination. -/
theorem StartFuel_succ_done (n : Nat) (s : StartState) (d1 : Detector)
    (c1 : Camera) (keys1 : List Int) (areas : List Rat) (n1 : Nat)
    (h : runCycle s.det s.camera s.keys =
      some (CycleResult.next d1 c1 keys1 areas n1 true)) :
    StartFuel (n + 1) s =
      some ({ det := d1, camera := c1, keys := keys1, spawned := s.spawned + n1 },
        none) := by
  rw [StartFuel, h]
  rfl

/-- Unfolding equation of the Start loop when the cycle completes and the
loop continues. -/
theorem StartFuel_succ_continue (n : Nat) (s : StartState) (d1 : Detector)
    (c1 : Camera) (keys1 : List Int) (areas : List Rat) (n1 : Nat)
    (h : runCycle s.det s.camera s.keys =
      some (CycleResult.next d1 c1 keys1 areas n1 false)) :
    StartFuel (n + 1) s =
      StartFuel n { det := d1, camera := c1, keys := keys1, spawned := s.spawned + n1 } := by
  rw [StartFuel, h]
  rfl

/-- Unfolding equation of the Start loop when the input streams starve. -/
theorem StartFuel_succ_none (n : Nat) (s : StartState)
    (h : runCycle s.det s.camera s.keys = none) :
    StartFuel (n + 1) s = none := by
  rw [StartFuel, h]

/-- Start invoked on a released camera immediately returns the Video Device
Closed error with the state unchanged. -/
theorem StartFuel_closed (n : Nat) (s : StartState)
    (h : s.camera.isOpen = false) :
    StartFuel (n + 1) s = some (s, some GoError.videoDeviceClosed) := by
  rw [StartFuel_succ_err n s s.det s.camera GoError.videoDeviceClosed
    (runCycle_closed s.det s.camera s.keys h)]

/-- When Start returns an error, the error is Video Device Closed and the
camera had been released or its read stream contained a closed signal; the
camera openness is carried through unchanged. -/
theorem StartFuel_err_char : ∀ (fuel : Nat) (s s1 : StartState) (e : GoError),
    StartFuel fuel s = some (s1, some e) →
    e = GoError.videoDeviceClosed ∧
      (s.camera.isOpen = false ∨ ReadResult.closed ∈ s.camera.frames) := by
  intro fuel
  induction fuel with
  | zero => intro s s1 e h; simp [StartFuel] at h
  | succ n ih =>
      intro s s1 e h
      rcases hrc : runCycle s.det s.camera s.keys with _ | cr
      · rw [StartFuel_succ_none n s hrc] at h
        simp at h
      · cases cr with
        | err d1 c1 e1 =>
            rw [StartFuel_succ_err n s d1 c1 e1 hrc] at h
            simp only [Option.some.injEq, Prod.mk.injEq] at h
            rcases runCycle_err_char s.det s.camera s.keys d1 c1 e1 hrc with
              ⟨_, he1, hclosed, _, _⟩
            exact ⟨by cases e; rfl, hclosed⟩
        | next d1 c1 keys1 areas n1 done =>
            cases done with
            | true =>
                rw [StartFuel_succ_done n s d1 c1 keys1 areas n1 hrc] at h
                simp at h
            | false =>
                rw [StartFuel_succ_continue n s d1 c1 keys1 areas n1 hrc] at h
                rcases ih _ s1 e h with ⟨he, hclosed⟩
                rcases runCycle_next_char s.det s.camera s.keys d1 c1 keys1 areas
                  n1 false hrc with ⟨_, _, _, _, hopen, hopen1, hsub⟩
                refine ⟨he, ?_⟩
                rcases hclosed with hc | hc
                · rw [hopen1] at hc
                  exact absurd hc (by simp)
                · exact Or.inr (hsub _ hc)

/-- The Start loop never changes the sensitivity threshold or the callback
registration. -/
theorem StartFuel_fields : ∀ (fuel : Nat) (s s1 : StartState) (oe : Option GoError),
    StartFuel fuel s = some (s1, oe) →
    s1.det.minDiffContourArea = s.det.minDiffContourArea ∧
      s1.det.onDetect = s.det.onDetect := by
  intro fuel
  induction fuel with
  | zero => intro s s1 oe h; simp [StartFuel] at h
  | succ n ih =>
      intro s s1 oe h
      rcases hrc : runCycle s.det s.camera s.keys with _ | cr
      · rw [StartFuel_succ_none n s hrc] at h
        simp at h
      · cases cr with
        | err d1 c1 e1 =>
            rw [StartFuel_succ_err n s d1 c1 e1 hrc] at h
            simp only [Option.some.injEq, Prod.mk.injEq] at h
            rcases runCycle_err_char s.det s.camera s.keys d1 c1 e1 hrc with
              ⟨hd1, _, _, _, _⟩
            rw [← h.1, hd1]
            exact ⟨rfl, rfl⟩
        | next d1 c1 keys1 areas n1 done =>
            have hfields :
                d1.minDiffContourArea = s.det.minDiffContourArea ∧
                  d1.onDetect = s.det.onDetect := by
              rcases runCycle_next_char s.det s.camera s.keys d1 c1 keys1 areas
                n1 done hrc with ⟨hd1, _, _, _, _, _, _⟩
              rw [hd1]
              unfold findAndDrawContours
              exact ⟨(foldl_contourStep_fields areas _).1,
                (foldl_contourStep_fields areas _).2⟩
            cases done with
            | true =>
                rw [StartFuel_succ_done n s d1 c1 keys1 areas n1 hrc] at h
                simp only [Option.some.injEq, Prod.mk.injEq] at h
                rw [← h.1]
                exact hfields
            | false =>
                rw [StartFuel_succ_continue n s d1 c1 keys1 areas n1 hrc] at h
                rcases ih _ s1 oe h with ⟨g1, g2⟩
                exact ⟨g1.trans hfields.1, g2.trans hfields.2⟩

/-- Any detector the Start loop hands back has either its input status or
one of the two statuses the loop assigns (Ready, Motion Detected). -/
theorem StartFuel_status_cases : ∀ (fuel : Nat) (s s1 : StartState) (oe : Option GoError),
    StartFuel fuel s = some (s1, oe) →
    s1.det.status = s.det.status ∨ s1.det.status = DetectorStatusReady ∨
      s1.det.status = DetectorStatusMotionDetected := by
  intro fuel
  induction fuel with
  | zero => intro s s1 oe h; simp [StartFuel] at h
  | succ n ih =>
      intro s s1 oe h
      rcases hrc : runCycle s.det s.camera s.keys with _ | cr
      · rw [StartFuel_succ_none n s hrc] at h
        simp at h
      · cases cr with
        | err d1 c1 e1 =>
            rw [StartFuel_succ_err n s d1 c1 e1 hrc] at h
            simp only [Option.some.injEq, Prod.mk.injEq] at h
            rcases runCycle_err_char s.det s.camera s.keys d1 c1 e1 hrc with
              ⟨hd1, _, _, _, _⟩
            rw [← h.1, hd1]
            exact Or.inl rfl
        | next d1 c1 keys1 areas n1 done =>
            have hstat :
                d1.status = DetectorStatusReady ∨
                  d1.status = DetectorStatusMotionDetected := by
              rcases runCycle_next_char s.det s.camera s.keys d1 c1 keys1 areas
                n1 done hrc with ⟨hd1, _, _, _, _, _, _⟩
              rw [hd1]
              unfold findAndDrawContours
              exact foldl_contourStep_status_cases areas _
            cases done with
            | true =>
                rw [StartFuel_succ_done n s d1 c1 keys1 areas n1 hrc] at h
                simp only [Option.some.injEq, Prod.mk.injEq] at h
                rw [← h.1]
                exact Or.inr hstat
            | false =>
                rw [StartFuel_succ_continue n s d1 c1 keys1 areas n1 hrc] at h
                rcases ih _ s1 oe h with g | g
                · rw [g]
                  exact Or.inr hstat
                · exact Or.inr g

/-- The Start loop preserves the consistency of the status color with the
status. -/
theorem StartFuel_colorConsistent : ∀ (fuel : Nat) (s s1 : StartState) (oe : Option GoError),
    colorConsistent s.det → StartFuel fuel s = some (s1, oe) →
    colorConsistent s1.det := by
  intro fuel
  induction fuel with
  | zero => intro s s1 oe _ h; simp [StartFuel] at h
  | succ n ih =>
      intro s s1 oe hcc h
      rcases hrc : runCycle s.det s.camera s.keys with _ | cr
      · rw [StartFuel_succ_none n s hrc] at h
        simp at h
      · cases cr with
        | err d1 c1 e1 =>
            rw [StartFuel_succ_err n s d1 c1 e1 hrc] at h
            simp only [Option.some.injEq, Prod.mk.injEq] at h
            rcases runCycle_err_char s.det s.camera s.keys d1 c1 e1 hrc with
              ⟨hd1, _, _, _, _⟩
            rw [← h.1, hd1]
            exact hcc
        | next d1 c1 keys1 areas n1 done =>
            have hcc1 : colorConsistent d1 := by
              rcases runCycle_next_char s.det s.camera s.keys d1 c1 keys1 areas
                n1 done hrc with ⟨hd1, _, _, _, _, _, _⟩
              rw [hd1]
              unfold findAndDrawContours
              apply foldl_contourStep_colorConsistent
              exact ⟨fun _ => rfl, fun hs => absurd
                (show DetectorStatusReady = DetectorStatusMotionDetected from hs)
                (by decide)⟩
            cases done with
            | true =>
                rw [StartFuel_succ_done n s d1 c1 keys1 areas n1 hrc] at h
                simp only [Option.some.injEq, Prod.mk.injEq] at h
                rw [← h.1]
                exact hcc1
            | false =>
                rw [StartFuel_succ_continue n s d1 c1 keys1 areas n1 hrc] at h
                exact ih _ s1 oe hcc1 h

/-- Folding the release attempts records every resource as attempted, in
order, and logs exactly the failing ones, in order. -/
theorem foldl_tryRelease (fails : Resource → Bool) (l : List Resource) :
    ∀ acc : List Resource × List String,
      (l.foldl (tryRelease fails) acc).1 = acc.1 ++ l ∧
      (l.foldl (tryRelease fails) acc).2 =
        acc.2 ++ (l.filter fails).map releaseLog := by
  induction l with
  | nil => intro acc; simp
  | cons r tl ih =>
      intro acc
      rw [List.foldl_cons]
      rcases ih (tryRelease fails acc r) with ⟨h1, h2⟩
      constructor
      · rw [h1]
        unfold tryRelease
        simp
      · rw [h2]
        unfold tryRelease
        by_cases hf : fails r = true
        · simp [hf, List.filter_cons]
        · have hf2 : fails r = false := by
            cases hx : fails r
            · rfl
            · exact absurd hx hf
          simp [hf2, List.filter_cons]

/-- Close always sets the detector status to Closed and leaves the other
detector fields unchanged, for every fault profile. -/
theorem Close_det (d : Detector) (fails : Resource → Bool) :
    (Close d fails).det = { d with status := DetectorStatusClosed } := rfl

/-- Close coincides with folding the release attempts over the six resources
in source order. -/
theorem Close_foldl (d : Detector) (fails : Resource → Bool) :
    (Close d fails).attempted = (closeOrder.foldl (tryRelease fails) ([], [])).1 ∧
    (Close d fails).logs = (closeOrder.foldl (tryRelease fails) ([], [])).2 :=
  ⟨rfl, rfl⟩

/-- Every one of the six resources is attempted by Close, in source order,
regardless of which releases fail. -/
theorem Close_attempted (d : Detector) (fails : Resource → Bool) :
    (Close d fails).attempted = closeOrder := by
  rw [(Close_foldl d fails).1, (foldl_tryRelease fails closeOrder ([], [])).1]
  simp

/-- Close logs exactly the failing releases, in source order. -/
theorem Close_logs (d : Detector) (fails : Resource → Bool) :
    (Close d fails).logs = (closeOrder.filter fails).map releaseLog := by
  rw [(Close_foldl d fails).2, (foldl_tryRelease fails closeOrder ([], [])).2]
  simp

/-- No client operation changes the sensitivity threshold or the callback
registration of the detector. -/
theorem applyOp_fields (w : StartState) (op : Op) :
    (applyOp w op).det.minDiffContourArea = w.det.minDiffContourArea ∧
    (applyOp w op).det.onDetect = w.det.onDetect := by
  cases op with
  | start fuel =>
      rcases hS : StartFuel fuel w with _ | ⟨s1, oe⟩
      · simp only [applyOp]
        rw [hS]
        exact ⟨rfl, rfl⟩
      · simp only [applyOp]
        rw [hS]
        exact StartFuel_fields fuel w s1 oe hS
  | statusQuery => exact ⟨rfl, rfl⟩
  | snapshotJPG => exact ⟨rfl, rfl⟩
  | close fails => exact ⟨rfl, rfl⟩

/-- Once the detector is Closed and the camera released, every further
operation keeps the status Closed and the camera released. -/
theorem applyOp_closed_inv (w : StartState) (op : Op)
    (hst : w.det.status = DetectorStatusClosed)
    (hcam : w.camera.isOpen = false) :
    (applyOp w op).det.status = DetectorStatusClosed ∧
    (applyOp w op).camera.isOpen = false := by
  cases op with
  | start fuel =>
      cases fuel with
      | zero => exact ⟨hst, hcam⟩
      | succ n =>
          simp only [applyOp]
          rw [StartFuel_closed n w hcam]
          exact ⟨hst, hcam⟩
  | statusQuery => exact ⟨hst, hcam⟩
  | snapshotJPG => exact ⟨hst, hcam⟩
  | close fails => exact ⟨rfl, rfl⟩

/-- Once the detector is Closed and the camera released, every further
sequence of operations keeps the status Closed and the camera released. -/
theorem runOps_closed_inv (ops : List Op) :
    ∀ w : StartState, w.det.status = DetectorStatusClosed →
      w.camera.isOpen = false →
      (runOps w ops).det.status = DetectorStatusClosed ∧
      (runOps w ops).camera.isOpen = false := by
  induction ops with
  | nil => intro w hst hcam; exact ⟨hst, hcam⟩
  | cons op tl ih =>
      intro w hst hcam
      rcases applyOp_closed_inv w op hst hcam with ⟨h1, h2⟩
      exact ih (applyOp w op) h1 h2

/-- Every client operation preserves the consistency of the status color
with the status. -/
theorem applyOp_colorConsistent (w : StartState) (op : Op)
    (h : colorConsistent w.det) : colorConsistent (applyOp w op).det := by
  cases op with
  | start fuel =>
      rcases hS : StartFuel fuel w with _ | ⟨s1, oe⟩
      · simp only [applyOp]
        rw [hS]
        exact h
      · simp only [applyOp]
        rw [hS]
        exact StartFuel_colorConsistent fuel w s1 oe h hS
  | statusQuery => exact h
  | snapshotJPG => exact h
  | close fails =>
      refine ⟨fun hs => ?_, fun hs => ?_⟩
      · exact absurd (show DetectorStatusClosed = DetectorStatusReady from hs) (by decide)
      · exact absurd
          (show DetectorStatusClosed = DetectorStatusMotionDetected from hs) (by decide)

/-- The only operation that can move the status to Closed is Close. -/
theorem applyOp_to_closed (w : StartState) (op : Op)
    (h1 : w.det.status ≠ DetectorStatusClosed)
    (h2 : (applyOp w op).det.status = DetectorStatusClosed) :
    ∃ g : Resource → Bool, op = Op.close g := by
  cases op with
  | start fuel =>
      exfalso
      rcases hS : StartFuel fuel w with _ | ⟨s1, oe⟩
      · simp only [applyOp] at h2
        rw [hS] at h2
        exact h1 h2
      · simp only [applyOp] at h2
        rw [hS] at h2
        rcases StartFuel_status_cases fuel w s1 oe hS with g | g | g
        · exact h1 (g ▸ h2)
        · rw [h2] at g
          exact absurd g (by decide)
        · rw [h2] at g
          exact absurd g (by decide)
  | statusQuery => exact absurd h2 h1
  | snapshotJPG => exact absurd h2 h1
  | close fails => exact ⟨fails, rfl⟩

/-- When every region area of a cycle is below the threshold the contour
pass leaves the detector unchanged and dispatches nothing. -/
theorem findAndDrawContours_skip (d : Detector) (areas : List Rat)
    (h : ∀ a ∈ areas, a < d.minDiffContourArea) :
    findAndDrawContours d areas = (d, 0) :=
  foldl_contourStep_skip areas (d, 0) h

/-- When some region area of a cycle reaches the threshold the contour pass
ends with status Motion Detected. -/
theorem findAndDrawContours_qual (d : Detector) (areas : List Rat) (a : Rat)
    (ha : a ∈ areas) (hge : d.minDiffContourArea ≤ a) :
    (findAndDrawContours d areas).1.status = DetectorStatusMotionDetected :=
  foldl_contourStep_qual areas (d, 0) a ha hge

/-- Closed form of the status after the contour fold: Motion Detected when
some area reaches the threshold, otherwise the incoming status. -/
theorem foldl_contourStep_status (l : List Rat) :
    ∀ st : Detector × Nat,
      (l.foldl contourStep st).1.status =
        if l.any (fun a => decide (st.1.minDiffContourArea ≤ a)) then
          DetectorStatusMotionDetected
        else st.1.status := by
  induction l with
  | nil => intro st; simp
  | cons a tl ih =>
      intro st
      rw [List.foldl_cons, ih (contourStep st a)]
      rcases contourStep_fields st a with ⟨hmin, _⟩
      rw [hmin]
      by_cases hlt : a < st.1.minDiffContourArea
      · have hstep : contourStep st a = st := by
          unfold contourStep
          exact if_pos hlt
        have hpa : decide (st.1.minDiffContourArea ≤ a) = false := by
          simp [not_le.mpr hlt]
        rw [hstep, List.any_cons, hpa]
        simp
      · have hpa : decide (st.1.minDiffContourArea ≤ a) = true := by
          simp [not_lt.mp hlt]
        have hstat : (contourStep st a).1.status = DetectorStatusMotionDetected := by
          unfold contourStep
          rw [if_neg hlt]
        rw [List.any_cons, hpa, hstat]
        simp

/-- A sequence of client operations preserves the consistency of the status
color with the status. -/
theorem runOps_colorConsistent (ops : List Op) :
    ∀ w : StartState, colorConsistent w.det →
      colorConsistent (runOps w ops).det := by
  induction ops with
  | nil => intro w h; exact h
  | cons op tl ih =>
      intro w h
      exact ih (applyOp w op) (applyOp_colorConsistent w op h)

/-- Folding max over a list of pixels that are all 0 or 255, starting from a
0-or-255 accumulator, yields 0 or 255. -/
theorem foldl_max_binary (l : List Nat) :
    ∀ acc : Nat, (∀ v ∈ l, v = 0 ∨ v = 255) → (acc = 0 ∨ acc = 255) →
      (l.foldl Nat.max acc = 0 ∨ l.foldl Nat.max acc = 255) := by
  induction l with
  | nil => intro acc _ hacc; exact hacc
  | cons v tl ih =>
      intro acc hall hacc
      rw [List.foldl_cons]
      apply ih
      · intro u hu
        exact hall u (List.mem_cons_of_mem _ hu)
      · have hv := hall v (List.mem_cons_self _ _)
        rcases hacc with h0 | h0 <;> rcases hv with h1 | h1 <;>
          rw [h0, h1] <;> simp

/-- Every pixel the binary threshold produces is 0 or 255. -/
theorem thresholdBinary_binary (diff : Int → Int → Nat) (x y : Int) :
    thresholdBinary 25 255 diff x y = 0 ∨ thresholdBinary 25 255 diff x y = 255 := by
  unfold thresholdBinary
  split
  · exact Or.inr rfl
  · exact Or.inl rfl

/-- Dilation of a 0-or-255 mask is a 0-or-255 mask. -/
theorem dilate3x3_binary (m : Int → Int → Nat)
    (hm : ∀ p q : Int, m p q = 0 ∨ m p q = 255) (x y : Int) :
    dilate3x3 m x y = 0 ∨ dilate3x3 m x y = 255 := by
  unfold dilate3x3
  apply foldl_max_binary
  · intro v hv
    rcases List.mem_map.mp hv with ⟨p, _, hp⟩
    rw [← hp]
    exact hm _ _
  · exact Or.inl rfl

/-- C1: in every processing cycle in which the frame source yields a
non-empty frame, the status at the end of the cycle is Ready when no
extracted region has area at least the minimum-region-area threshold, and
Motion Detected when at least one has. -/
theorem cycle_status_matches_qualifying_regions (d : Detector) (c : Camera)
    (keys : List Int) (d1 : Detector) (c1 : Camera) (keys1 : List Int)
    (areas : List Rat) (n : Nat) (done : Bool)
    (h : runCycle d c keys = some (CycleResult.next d1 c1 keys1 areas n done)) :
    ((∀ a ∈ areas, a < d.minDiffContourArea) →
      d1.status = DetectorStatusReady) ∧
    ((∃ a ∈ areas, d.minDiffContourArea ≤ a) →
      d1.status = DetectorStatusMotionDetected) := by
  rcases runCycle_next_char d c keys d1 c1 keys1 areas n done h with
    ⟨hd1, _, _, _, _, _, _⟩
  subst hd1
  constructor
  · intro hall
    have hskip := findAndDrawContours_skip
      { statusColor := statusReadyColor, minDiffContourArea := d.minDiffContourArea,
        status := DetectorStatusReady, onDetect := d.onDetect } areas hall
    rw [hskip]
  · rintro ⟨a, ha, hge⟩
    exact findAndDrawContours_qual _ areas a ha hge

/-- C1 witness: a concrete cycle on a fresh detector with one region of area
9000 ends with status Motion Detected. -/
theorem cycle_status_matches_qualifying_regions_witness :
    motionDetector.status = DetectorStatusMotionDetected :=
  (cycle_status_matches_qualifying_regions initDetector
      { isOpen := true, frames := [ReadResult.frame false [9000]] } [escapeKey]
      motionDetector { isOpen := true, frames := [] } [] [9000] 0 true
      (by decide)).2 ⟨9000, by decide, by decide⟩

/-- C2: the detection policy skips a region (leaving the whole state
unchanged) exactly when its area is strictly below the minimum-region-area
threshold; a region with area at least the threshold, in particular exactly
equal to it, sets status Motion Detected and dispatches the callback when
one is registered. -/
theorem region_skip_iff_below_threshold (d : Detector) (n : Nat) (a : Rat) :
    (a < d.minDiffContourArea → contourStep (d, n) a = (d, n)) ∧
    (d.minDiffContourArea ≤ a →
      (contourStep (d, n) a).1.status = DetectorStatusMotionDetected ∧
      (contourStep (d, n) a).2 = (if d.onDetect then n + 1 else n)) ∧
    (contourStep (d, n) d.minDiffContourArea).1.status =
      DetectorStatusMotionDetected := by
  refine ⟨?_, ?_, ?_⟩
  · intro h
    unfold contourStep
    rw [if_pos h]
  · intro h
    unfold contourStep
    rw [if_neg (not_lt.mpr h)]
    exact ⟨rfl, rfl⟩
  · unfold contourStep
    rw [if_neg (lt_irrefl _)]

/-- C2 witness: on a fresh detector (threshold 9000) an area of 5 is skipped
and an area of exactly 9000 is a detection. -/
theorem region_skip_iff_below_threshold_witness :
    contourStep (initDetector, 0) 5 = (initDetector, 0) ∧
    (contourStep (initDetector, 0) 9000).1.status =
      DetectorStatusMotionDetected :=
  ⟨(region_skip_iff_below_threshold initDetector 0 5).1 (by decide),
   ((region_skip_iff_below_threshold initDetector 0 9000).2.1 (by decide)).1⟩

/-- C3: a cycle dispatches exactly one asynchronous callback invocation per
region whose area reaches the threshold when a callback is registered — N
qualifying regions give N dispatches, not deduplicated — and none when no
callback is registered; the status the loop continues with is the same
whether or not a callback is registered, so the dispatch never blocks or
alters the processing loop. -/
theorem callback_dispatch_count (d : Detector) (areas : List Rat) (b : Bool) :
    (findAndDrawContours d areas).2 =
      (if d.onDetect then
          areas.countP (fun a => decide (d.minDiffContourArea ≤ a))
        else 0) ∧
    (findAndDrawContours { d with onDetect := b } areas).1.status =
      (findAndDrawContours d areas).1.status := by
  constructor
  · have h := foldl_contourStep_count areas (d, 0)
    unfold findAndDrawContours
    rw [h]
    simp
  · unfold findAndDrawContours
    rw [foldl_contourStep_status areas, foldl_contourStep_status areas]

/-- When every read before a closed signal is an empty-but-ok frame, the
wait loop retries through all of them and returns the Video Device Closed
error, leaving the detector unchanged. -/
theorem waitFrames_closed_first (d : Detector) (pre rest : List ReadResult)
    (hpre : ∀ x ∈ pre, ∃ as, x = ReadResult.frame true as) :
    waitFrames d (pre ++ ReadResult.closed :: rest) =
      some (WaitResult.err d GoError.videoDeviceClosed, rest) := by
  induction pre with
  | nil => rw [List.nil_append, waitFrames]
  | cons x tl ih =>
      rcases hpre x (List.mem_cons_self _ _) with ⟨as, hx⟩
      subst hx
      rw [List.cons_append, waitFrames]
      show waitFrames d (tl ++ ReadResult.closed :: rest) =
        some (WaitResult.err d GoError.videoDeviceClosed, rest)
      exact ih (fun y hy => hpre y (List.mem_cons_of_mem _ hy))

/-- When the open camera's stream reports closure after only empty-frame
retries, Start returns the Video Device Closed error with the detector
unchanged. -/
theorem StartFuel_err_on_closed_signal (n : Nat) (s : StartState)
    (pre rest : List ReadResult)
    (hopen : s.camera.isOpen = true)
    (hframes : s.camera.frames = pre ++ ReadResult.closed :: rest)
    (hpre : ∀ x ∈ pre, ∃ as, x = ReadResult.frame true as) :
    StartFuel (n + 1) s =
      some ({ s with camera := { isOpen := true, frames := rest } },
        some GoError.videoDeviceClosed) := by
  have hwait : waitForNextFrame s.det s.camera =
      some (WaitResult.err s.det GoError.videoDeviceClosed,
        { isOpen := true, frames := rest }) := by
    unfold waitForNextFrame
    rw [hopen, hframes, waitFrames_closed_first s.det pre rest hpre]
    rfl
  have hrc : runCycle s.det s.camera s.keys =
      some (CycleResult.err s.det { isOpen := true, frames := rest }
        GoError.videoDeviceClosed) := by
    unfold runCycle
    rw [hwait]
  exact StartFuel_succ_err n s s.det { isOpen := true, frames := rest }
    GoError.videoDeviceClosed hrc

/-- C4: Start returns an error exactly when the frame source reports it is
closed. Only if: any error Start returns is the Video Device Closed error
and requires a not-ok read (released device or a closed signal in the
stream). If: whenever a read returns not-ok — the open camera's stream
signals closure after only empty-frame retries, or the device has been
released — Start returns the Video Device Closed error. And an empty-but-ok
frame is retried silently inside the same waitForNextFrame call, leaving
the wait exactly as if the empty read had not happened, so empty frames
never produce an error. -/
theorem start_error_iff_device_closed (fuel : Nat) (s s1 : StartState)
    (e : GoError) (dE : Detector) (areasE : List Rat)
    (restE : List ReadResult) (n m : Nat) (sI sC : StartState)
    (pre rest : List ReadResult)
    (h : StartFuel fuel s = some (s1, some e))
    (hopen : sI.camera.isOpen = true)
    (hframes : sI.camera.frames = pre ++ ReadResult.closed :: rest)
    (hpre : ∀ x ∈ pre, ∃ as, x = ReadResult.frame true as)
    (hC : sC.camera.isOpen = false) :
    (e = GoError.videoDeviceClosed ∧
      (s.camera.isOpen = false ∨ ReadResult.closed ∈ s.camera.frames)) ∧
    waitFrames dE (ReadResult.frame true areasE :: restE) =
      waitFrames dE restE ∧
    StartFuel (n + 1) sI =
      some ({ sI with camera := { isOpen := true, frames := rest } },
        some GoError.videoDeviceClosed) ∧
    StartFuel (m + 1) sC = some (sC, some GoError.videoDeviceClosed) := by
  refine ⟨StartFuel_err_char fuel s s1 e h, ?_,
    StartFuel_err_on_closed_signal n sI pre rest hopen hframes hpre,
    StartFuel_closed m sC hC⟩
  rw [waitFrames]
  simp

/-- C4 witness: a run on a stream that immediately signals closure returns
the Video Device Closed error with the closed signal in the stream; a run
on a stream with one empty frame before the closed signal returns the same
error; and a run on a released camera returns the same error. -/
theorem start_error_iff_device_closed_witness :
    (GoError.videoDeviceClosed = GoError.videoDeviceClosed ∧
      (closedStreamState.camera.isOpen = false ∨
        ReadResult.closed ∈ closedStreamState.camera.frames)) ∧
    StartFuel 1 emptyThenClosedState =
      some ({ emptyThenClosedState with camera := { isOpen := true, frames := [] } },
        some GoError.videoDeviceClosed) ∧
    StartFuel 1 releasedCameraState =
      some (releasedCameraState, some GoError.videoDeviceClosed) := by
  have h := start_error_iff_device_closed 1 closedStreamState
    { det := initDetector, camera := { isOpen := true, frames := [] },
      keys := [], spawned := 0 }
    GoError.videoDeviceClosed initDetector [] [] 0 0
    emptyThenClosedState releasedCameraState
    [ReadResult.frame true []] []
    (by decide) (by decide) (by decide)
    (by
      intro x hx
      rw [List.mem_singleton] at hx
      exact ⟨[], hx⟩)
    (by decide)
  exact ⟨h.1, h.2.2.1, h.2.2.2⟩

/-- C5 counterexample: at a foreground pixel of magnitude exactly 25 the
refiner the source invokes (OpenCV binary threshold, strictly greater than
25) turns the pixel off, while the spec-described inclusive threshold
(at least 25) turns it on: the claim fails at magnitude 25. -/
theorem mask_refiner_boundary_cex :
    thresholdBinary 25 255 (fun _ _ => 25) 0 0 = 0 ∧
    specThresholdInclusive 25 255 (fun _ _ => 25) 0 0 = 255 ∧
    prepareCurrentFrame (fun _ _ => 25) 0 0 = 0 ∧
    specPrepareCurrentFrame (fun _ _ => 25) 0 0 = 255 := by
  refine ⟨by decide, by decide, by decide, by decide⟩

/-- C5 (amended): the mask refiner applies exactly the binary threshold and
then the 3x3 rectangular dilation, in that order; a pixel becomes 255
exactly when its magnitude is strictly greater than 25 (equivalently at
least 26 on the 0-255 integer range) and 0 otherwise; and the refined
output is binary, every pixel being 0 or 255. -/
theorem mask_refiner_threshold_dilate (diff : Int → Int → Nat) (x y : Int) :
    prepareCurrentFrame diff = dilate3x3 (thresholdBinary 25 255 diff) ∧
    (25 < diff x y → thresholdBinary 25 255 diff x y = 255) ∧
    (diff x y ≤ 25 → thresholdBinary 25 255 diff x y = 0) ∧
    (prepareCurrentFrame diff x y = 0 ∨ prepareCurrentFrame diff x y = 255) := by
  refine ⟨rfl, ?_, ?_, ?_⟩
  · intro h
    unfold thresholdBinary
    rw [if_pos h]
  · intro h
    unfold thresholdBinary
    rw [if_neg (not_lt.mpr h)]
  · exact dilate3x3_binary (thresholdBinary 25 255 diff)
      (thresholdBinary_binary diff) x y

/-- C5 witness: magnitude 30 is turned on, magnitude 20 is turned off, and
the refined pixel at a 30-magnitude input is binary. -/
theorem mask_refiner_threshold_dilate_witness :
    thresholdBinary 25 255 (fun _ _ => 30) 0 0 = 255 ∧
    thresholdBinary 25 255 (fun _ _ => 20) 0 0 = 0 ∧
    (prepareCurrentFrame (fun _ _ => 30) 0 0 = 0 ∨
      prepareCurrentFrame (fun _ _ => 30) 0 0 = 255) :=
  ⟨(mask_refiner_threshold_dilate (fun _ _ => 30) 0 0).2.1 (by decide),
   (mask_refiner_threshold_dilate (fun _ _ => 20) 0 0).2.2.1 (by decide),
   (mask_refiner_threshold_dilate (fun _ _ => 30) 0 0).2.2.2⟩

/-- C6: after Close the status is Closed; it stays Closed under every
further sequence of operations run on the closed state; and the only
operation that can move a non-Closed status to Closed is Close itself. -/
theorem closed_status_terminal (w : StartState) (f : Resource → Bool)
    (ops : List Op) (op : Op)
    (h1 : w.det.status ≠ DetectorStatusClosed)
    (h2 : (applyOp w op).det.status = DetectorStatusClosed) :
    (applyOp w (Op.close f)).det.status = DetectorStatusClosed ∧
    (runOps (applyOp w (Op.close f)) ops).det.status = DetectorStatusClosed ∧
    ∃ g : Resource → Bool, op = Op.close g := by
  refine ⟨rfl, ?_, applyOp_to_closed w op h1 h2⟩
  exact (runOps_closed_inv ops (applyOp w (Op.close f)) rfl rfl).1

/-- C6 witness: closing a fresh state yields status Closed, a further status
query keeps it Closed, and the operation that moved the fresh Ready state to
Closed was indeed a Close. -/
theorem closed_status_terminal_witness :
    (applyOp idleWorld (Op.close (fun _ => false))).det.status =
      DetectorStatusClosed ∧
    (runOps (applyOp idleWorld (Op.close (fun _ => false)))
        [Op.statusQuery]).det.status = DetectorStatusClosed := by
  have h := closed_status_terminal idleWorld (fun _ => false) [Op.statusQuery]
    (Op.close (fun _ => false)) (by decide) (by decide)
  exact ⟨h.1, h.2.1⟩

/-- C7 counterexample: two detector states reachable from construction are
both Closed yet carry different status colors — closing a fresh detector
keeps the white Ready color while closing after a motion cycle keeps the
purple Motion Detected color — so Closed has no single associated color and
Close changes the status without setting a color. -/
theorem statusColor_closed_not_unique_cex :
    NewMotionDetector true false = some initDetector ∧
    (runOps idleWorld [Op.close (fun _ => false)]).det.status =
      DetectorStatusClosed ∧
    (runOps motionWorld [Op.start 1, Op.close (fun _ => false)]).det.status =
      DetectorStatusClosed ∧
    (runOps idleWorld [Op.close (fun _ => false)]).det.statusColor =
      statusReadyColor ∧
    (runOps motionWorld [Op.start 1, Op.close (fun _ => false)]).det.statusColor =
      statusMotionDetectedColor ∧
    statusReadyColor ≠ statusMotionDetectedColor := by
  refine ⟨by decide, by decide, by decide, by decide, by decide, by decide⟩

/-- C7 (amended): in every state reachable from construction the status
color is consistent with the status for the two statuses the processing
loop assigns — Ready has exactly the white color and Motion Detected
exactly the purple color — while Close sets status Closed without updating
the color, so a Closed detector keeps the color of its prior status. -/
theorem statusColor_consistent_ready_motion (camOk cb : Bool)
    (frames : List ReadResult) (keys : List Int) (w : StartState)
    (ops : List Op) (dC : Detector) (fC : Resource → Bool)
    (h : initWorld camOk cb frames keys = some w) :
    colorConsistent (runOps w ops).det ∧
    (Close dC fC).det.statusColor = dC.statusColor := by
  refine ⟨?_, rfl⟩
  have hcc : colorConsistent w.det := by
    cases camOk with
    | false => simp [initWorld, NewMotionDetector] at h
    | true =>
        simp [initWorld, NewMotionDetector] at h
        rw [← h]
        exact ⟨fun _ => rfl, fun hs => absurd
          (show DetectorStatusReady = DetectorStatusMotionDetected from hs)
          (by decide)⟩
  exact runOps_colorConsistent ops w hcc

/-- C7 witness: a freshly constructed state run through no operations has
the white color of its Ready status, and Close keeps a detector's color. -/
theorem statusColor_consistent_ready_motion_witness :
    (runOps idleWorld []).det.statusColor = statusReadyColor ∧
    (Close initDetector (fun _ => false)).det.statusColor =
      initDetector.statusColor := by
  have h := statusColor_consistent_ready_motion true false [] [] idleWorld []
    initDetector (fun _ => false) (by decide)
  exact ⟨h.1.1 rfl, h.2⟩

/-- C8: the sensitivity presets are strictly ordered VerySensitive (3000) <
DefaultSensitive (6000) < NotSensitive (9000), and qualification is
antitone in the threshold: a region of area A with T1 ≤ A < T2 is a
detection under the policy with threshold T1 and is skipped under the
policy with threshold T2. -/
theorem sensitivity_presets_ordered_antitone (d1 d2 : Detector)
    (n1 n2 : Nat) (a : Rat)
    (h1 : d1.minDiffContourArea ≤ a) (h2 : a < d2.minDiffContourArea) :
    (VerySensitive < DefaultSensitive ∧ DefaultSensitive < NotSensitive) ∧
    (contourStep (d1, n1) a).1.status = DetectorStatusMotionDetected ∧
    contourStep (d2, n2) a = (d2, n2) := by
  refine ⟨by decide, ?_, ?_⟩
  · unfold contourStep
    rw [if_neg (not_lt.mpr h1)]
  · unfold contourStep
    rw [if_pos h2]

/-- C8 witness: an area of 4000 qualifies under the VerySensitive (3000)
policy and is skipped under the DefaultSensitive (6000) policy. -/
theorem sensitivity_presets_ordered_antitone_witness :
    (VerySensitive < DefaultSensitive ∧ DefaultSensitive < NotSensitive) ∧
    (contourStep (verySensitiveDetector, 0) 4000).1.status =
      DetectorStatusMotionDetected ∧
    contourStep (defaultSensitiveDetector, 0) 4000 =
      (defaultSensitiveDetector, 0) :=
  sensitivity_presets_ordered_antitone verySensitiveDetector
    defaultSensitiveDetector 0 0 4000 (by decide) (by decide)

/-- C9: Close attempts the release of all six owned resources — camera,
window, image matrix, diff matrix, threshold matrix, background
subtractor — in order and independently of which releases fail; exactly the
failing releases are logged; the detector ends Closed; and the result type
carries no error back to the caller. -/
theorem close_releases_all_resources (d : Detector) (fails : Resource → Bool) :
    (Close d fails).attempted =
      [Resource.camera, Resource.window, Resource.baseImg, Resource.diff,
       Resource.thresh, Resource.bgsub] ∧
    (Close d fails).logs = (closeOrder.filter fails).map releaseLog ∧
    (Close d fails).det = { d with status := DetectorStatusClosed } :=
  ⟨Close_attempted d fails, Close_logs d fails, rfl⟩

/-- C10: the constructor sets the minimum-region-area threshold to the
NotSensitive preset (9000), a positive number, and stores the supplied
callback registration; and no operation (Start with its per-cycle steps,
Status, SnapshotJPG, or Close) ever changes the threshold or the callback
registration afterwards. -/
theorem threshold_fixed_at_construction (cb : Bool) (d : Detector)
    (w : StartState) (op : Op)
    (h : NewMotionDetector true cb = some d) :
    (d.minDiffContourArea = NotSensitive ∧ 0 < d.minDiffContourArea ∧
      d.onDetect = cb) ∧
    (applyOp w op).det.minDiffContourArea = w.det.minDiffContourArea ∧
    (applyOp w op).det.onDetect = w.det.onDetect := by
  have hd : ({ statusColor := statusReadyColor, minDiffContourArea := NotSensitive, status := DetectorStatusReady, onDetect := cb } : Detector) = d := by
    simp [NewMotionDetector] at h
    exact h
  rw [← hd]
  exact ⟨⟨rfl, show (0 : Rat) < NotSensitive from by decide, rfl⟩,
    (applyOp_fields w op).1, (applyOp_fields w op).2⟩

/-- C10 witness: constructing with a callback gives threshold 9000 and the
callback registered, and a status query changes neither field. -/
theorem threshold_fixed_at_construction_witness :
    (callbackDetector.minDiffContourArea = NotSensitive ∧
      0 < callbackDetector.minDiffContourArea ∧
      callbackDetector.onDetect = true) ∧
    (applyOp idleWorld Op.statusQuery).det.minDiffContourArea =
      idleWorld.det.minDiffContourArea ∧
    (applyOp idleWorld Op.statusQuery).det.onDetect =
      idleWorld.det.onDetect :=
  threshold_fixed_at_construction true callbackDetector idleWorld
    Op.statusQuery (by decide)

end GoAway
